import Mathlib

/-!
# Igor status plugin

A shallow embedding of `plugins/status.go`: the command router `StatusPlugin.Work`,
the fan-out over the registered status checks, the domain probe `handleDomain`,
the AWS status board scan `handleAWSStatus` and the status-page checks.

Go strings are byte sequences, so slicing and comparison are byte-wise.  Outbound
calls (`http.Get`, `goquery.NewDocument`) and the completion order of the fan-out
goroutines are read from a `World`; run-time panics are explicit outcomes.
-/

namespace Igor

/-! ## Go values -/

/-- A Go string: an immutable sequence of bytes. -/
abbrev GoString := List UInt8

/-- The bytes (UTF-8) of a string literal of the source. -/
def str (s : String) : GoString := s.toList.flatMap String.utf8EncodeChar

/-- Where a run-time panic was raised. -/
inductive Panic
  /-- Slice bounds out of range in `Work` (`request.Text[:6]`, `request.Text[7:]`). -/
  | routerSlice
  /-- Slice bounds out of range at `message[:10]` in `handleAWSStatus`. -/
  | messageSlice
  /-- Nil pointer dereference at `resp.Body` in `defer resp.Body.Close()`. -/
  | nilResponse
  deriving DecidableEq, Repr

/-- How a call ends: it returns a value, it panics, or it blocks for ever on a
channel receive. -/
inductive Outcome (α : Type)
  | ret (a : α)
  | panic (p : Panic)
  | blocked
  deriving DecidableEq, Repr

/-- Go error values: `errors.New(text)`, the plugin package's no-match error, and
errors produced by the libraries behind the outbound calls (net/http,
encoding/json, goquery), told apart by a tag. -/
inductive GoError
  | errorsNew (text : GoString)
  | noMatch (text : GoString)
  | upstream (tag : Nat)
  deriving DecidableEq, Repr

/-- Modelled from the spec: `CreateNoMatchError` of the plugins package (not among
the source files), the distinguishable "no match" error kind. -/
def CreateNoMatchError (text : GoString) : GoError := GoError.noMatch text

/-- Modelled from the spec: `slack.Attachment`, the result record, with the fields
the source assigns (`Title`, `PreText`, `Text`, `Color`); the zero value has all
of them empty. -/
structure Attachment where
  Title : GoString := []
  PreText : GoString := []
  Text : GoString := []
  Color : GoString := []
  deriving DecidableEq, Repr

/-- Modelled from the spec: the visibility flag of the response envelope. -/
inductive Visibility
  | Private
  | Public
  deriving DecidableEq, Repr

/-- Modelled from the spec: `slack.Response`, the response envelope (headline
`Text`, ordered records, visibility); the zero value is empty and not public. -/
structure Response where
  Text : GoString := []
  Attachments : List Attachment := []
  visibility : Visibility := Visibility.Private
  deriving DecidableEq, Repr

/-- Modelled from the spec: `Response.AddAttachment` appends one record. -/
def Response.AddAttachment (response : Response) (attachment : Attachment) : Response :=
  { response with Attachments := response.Attachments ++ [attachment] }

/-- Modelled from the spec: `Response.SetPublic` marks the envelope public. -/
def Response.SetPublic (response : Response) : Response :=
  { response with visibility := Visibility.Public }

/-- The `slack.Request` as far as the plugin reads it: the command text. -/
structure Request where
  Text : GoString
  deriving DecidableEq, Repr

/-! ## Go library operations used by the plugin -/

/-- The slice expression `s[:hi]`: defined only when `hi ≤ len(s)`. -/
def sliceTo (s : GoString) (hi : Nat) : Option GoString :=
  if hi ≤ s.length then some (s.take hi) else none

/-- The slice expression `s[lo:]`: defined only when `lo ≤ len(s)`. -/
def sliceFrom (s : GoString) (lo : Nat) : Option GoString :=
  if lo ≤ s.length then some (s.drop lo) else none

/-- The call `strings.Trim(s, cutset)` for a cutset of ASCII bytes: leading and
trailing bytes of the cutset are removed. -/
def stringsTrim (s cutset : GoString) : GoString :=
  ((s.dropWhile cutset.contains).reverse.dropWhile cutset.contains).reverse

/-- The replacement loop of `strings.Replace` for a non-empty `old`: scanning left
to right, the next `limit` non-overlapping occurrences of `old` become `new`;
`skip` counts the bytes of a matched occurrence still to pass over. -/
def replaceLoop (old new : GoString) : Nat → Nat → GoString → GoString
  | _, _, [] => []
  | limit, skip + 1, _ :: cs => replaceLoop old new limit skip cs
  | 0, 0, c :: cs => c :: cs
  | limit + 1, 0, c :: cs =>
    if old.isPrefixOf (c :: cs) then new ++ replaceLoop old new limit (old.length - 1) cs
    else c :: replaceLoop old new (limit + 1) 0 cs

/-- The call `strings.Replace(s, old, new, n)` for a non-empty `old`: the first `n`
occurrences are replaced, all of them when `n < 0`. -/
def stringsReplace (s old new : GoString) (n : Int) : GoString :=
  replaceLoop old new (if n < 0 then s.length else n.toNat) 0 s

/-- The call `strconv.Itoa(n)` for a non-negative counter. -/
def strconvItoa (n : Nat) : GoString := (Nat.toDigits 10 n).flatMap String.utf8EncodeChar

/-! ## The outside world -/

/-- An HTTP response as the plugin reads it: what `json.NewDecoder(resp.Body).Decode`
yields for each of the two result structs the source decodes into. -/
structure HttpResponse where
  /-- Decoding into `struct { StatusCode int64 }` (`handleDomain`). -/
  decodeStatusCode : Except GoError Int
  /-- Decoding into `struct { Status, Body string }` (`handleGitHubStatus`). -/
  decodeLastMessage : Except GoError (GoString × GoString)

/-- A parsed HTML document as the plugin queries it. -/
structure Document where
  /-- The text of `doc.Find("div.page-status span.status")`. -/
  statusText : GoString
  /-- The classes carried by the elements matched by `doc.Find("div.page-status")`. -/
  pageStatusClasses : List GoString
  /-- For each row matched by `div#current_events_block table tr`, in page
  order, the texts of its `td` cells. -/
  eventRows : List (List GoString)

/-- Everything outside the plugin that one request depends on. -/
structure World where
  /-- The result pair `(resp, err)` of `http.Get(url)`. -/
  httpGet : GoString → Option HttpResponse × Option GoError
  /-- The result of `goquery.NewDocument(url)`. -/
  newDocument : GoString → Except GoError Document
  /-- The order in which the fan-out goroutines send on the channel, by
  registered short name. -/
  completion : List GoString

/-- The text of `s.Find("td").Eq(i)`: empty when the row has no such cell. -/
def tdText (s : List GoString) (i : Nat) : GoString := s.getD i []

/-! ## The adapters -/

/-- The method `StatusPlugin.handleDomain`. -/
def handleDomain (w : World) (domain : GoString) : Outcome (Attachment × Option GoError) :=
  let attachment : Attachment := { Title := domain }
  match w.httpGet (str "https://isitup.org/" ++ domain ++ str ".json") with
  | (none, _) => Outcome.panic Panic.nilResponse
  | (some _, some err) => Outcome.ret (attachment, some err)
  | (some resp, none) =>
    match resp.decodeStatusCode with
    | Except.error err => Outcome.ret (attachment, some err)
    | Except.ok statusCode =>
      if statusCode = 1 then
        Outcome.ret ({ attachment with Color := str "good", Text := str ":thumbsup:" }, none)
      else if statusCode = 2 then
        Outcome.ret ({ attachment with Color := str "danger", Text := str ":thumbsdown:" }, none)
      else
        Outcome.ret (attachment, some (GoError.errorsNew (str "Not a valid domain")))

/-- The method `StatusPlugin.handleGitHubStatus`. -/
def handleGitHubStatus (w : World) : Outcome (Attachment × Option GoError) :=
  let attachment : Attachment :=
    { Title := str "GitHub", PreText := str "http://status.github.com" }
  match w.httpGet (str "https://status.github.com/api/last-message.json") with
  | (none, _) => Outcome.panic Panic.nilResponse
  | (some _, some err) => Outcome.ret (attachment, some err)
  | (some resp, none) =>
    match resp.decodeLastMessage with
    | Except.error err => Outcome.ret (attachment, some err)
    | Except.ok (status, body) =>
      let attachment := { attachment with Text := body }
      if status = str "good" then
        Outcome.ret ({ attachment with Color := str "good" }, none)
      else if status = str "minor" then
        Outcome.ret ({ attachment with Color := str "warning" }, none)
      else if status = str "major" then
        Outcome.ret ({ attachment with Color := str "danger" }, none)
      else
        Outcome.ret (attachment, none)

/-- The method `StatusPlugin.handleStatusPageIo`. -/
def handleStatusPageIo (w : World) (attachment : Attachment) :
    Outcome (Attachment × Option GoError) :=
  match w.newDocument attachment.PreText with
  | Except.error err => Outcome.ret (attachment, some err)
  | Except.ok doc =>
    let attachment := { attachment with Text := doc.statusText }
    if doc.pageStatusClasses.contains (str "status-none") then
      Outcome.ret ({ attachment with Color := str "good" }, none)
    else if doc.pageStatusClasses.contains (str "status-yellow") then
      Outcome.ret ({ attachment with Color := str "warning" }, none)
    else
      Outcome.ret ({ attachment with Color := str "danger" }, none)

/-- The method `StatusPlugin.handleBitbucketStatus`. -/
def handleBitbucketStatus (w : World) : Outcome (Attachment × Option GoError) :=
  handleStatusPageIo w { Title := str "Bitbucket", PreText := str "http://status.bitbucket.org" }

/-- The method `StatusPlugin.handleNpmjsStatus`. -/
def handleNpmjsStatus (w : World) : Outcome (Attachment × Option GoError) :=
  handleStatusPageIo w { Title := str "NPM", PreText := str "http://status.npmjs.org" }

/-- The method `StatusPlugin.handleDisqusStatus`. -/
def handleDisqusStatus (w : World) : Outcome (Attachment × Option GoError) :=
  handleStatusPageIo w { Title := str "Disqus", PreText := str "http://status.disqus.com" }

/-- The method `StatusPlugin.handleCloudflareStatus`. -/
def handleCloudflareStatus (w : World) : Outcome (Attachment × Option GoError) :=
  handleStatusPageIo w { Title := str "Cloudflare", PreText := str "http://cloudflarestatus.com" }

/-! ## The AWS status board -/

/-- The variables the row callback of `handleAWSStatus` updates. -/
structure ScanState where
  attachments : List Attachment
  nrResolved : Nat
  nrProblems : Nat
  deriving DecidableEq, Repr

/-- The literal that the first `strings.Replace` of the row callback removes: a
line break, eight spaces, four no-break spaces, "more", a no-break space and
three indented line breaks (48 bytes). -/
def moreMarker : GoString :=
  str "\n        \u00a0\u00a0\u00a0\u00a0more\u00a0\n        \n        \n      "

/-- The callback passed to `Each` in `handleAWSStatus`, for one table row. -/
def eachRow (st : ScanState) (s : List GoString) : Outcome ScanState :=
  let message := stringsTrim (tdText s 2) (str " \n")
  if message ≠ str "Service is operating normally" ∧ message ≠ str "" then
    let message := stringsReplace message moreMarker (str "\n") 1
    let message := stringsReplace message (str ".") (str ".\n") (-1)
    let service := tdText s 1
    let attachment : Attachment := { Title := service, Text := message }
    match sliceTo message 10 with
    | none => Outcome.panic Panic.messageSlice
    | some head =>
      if head = str "[RESOLVED]" then
        Outcome.ret
          { st with
            attachments := st.attachments ++ [{ attachment with Color := str "warning" }]
            nrResolved := st.nrResolved + 1 }
      else
        Outcome.ret
          { st with
            attachments := st.attachments ++ [{ attachment with Color := str "danger" }]
            nrProblems := st.nrProblems + 1 }
  else Outcome.ret st

/-- The iteration `Each` over the matched rows, in page order; a panic in the
callback ends it. -/
def scanRows : List (List GoString) → ScanState → Outcome ScanState
  | [], st => Outcome.ret st
  | s :: rest, st =>
    match eachRow st s with
    | Outcome.ret st => scanRows rest st
    | Outcome.panic p => Outcome.panic p
    | Outcome.blocked => Outcome.blocked

/-- The summary that `handleAWSStatus` computes from the two counters. -/
def summarize (mainAttachment : Attachment) (nrProblems nrResolved : Nat) : Attachment :=
  if nrProblems ≠ 0 then
    let mainAttachment :=
      { mainAttachment with
        Color := str "danger"
        Text := str "Nr of issues: " ++ strconvItoa nrProblems }
    if nrResolved ≠ 0 then
      { mainAttachment with
        Text := mainAttachment.Text ++ (str "\nNr of resolved issues: " ++ strconvItoa nrResolved) }
    else mainAttachment
  else if nrResolved ≠ 0 then
    { mainAttachment with
      Color := str "warning"
      Text := str "Nr of resolved issues: " ++ strconvItoa nrResolved }
  else
    { mainAttachment with
      Color := str "good"
      Text := str "Everything is operating normally" }

/-- The method `StatusPlugin.handleAWSStatus`. -/
def handleAWSStatus (w : World) : Outcome (List Attachment × Option GoError) :=
  let attachments : List Attachment := []
  let mainAttachment : Attachment :=
    { Title := str "AWS", PreText := str "http://status.aws.amazon.com" }
  let attachments := attachments ++ [mainAttachment]
  match w.newDocument mainAttachment.PreText with
  | Except.error err => Outcome.ret (attachments, some err)
  | Except.ok doc =>
    match scanRows doc.eventRows { attachments := attachments, nrResolved := 0, nrProblems := 0 } with
    | Outcome.panic p => Outcome.panic p
    | Outcome.blocked => Outcome.blocked
    | Outcome.ret st =>
      Outcome.ret
        (st.attachments.set 0 (summarize mainAttachment st.nrProblems st.nrResolved), none)

/-! ## The router -/

/-- The map `statuschecks` built at the start of `Work`: each registered short
name with the outcome of calling its check in this world. -/
def statuschecks (w : World) : List (GoString × Outcome (Attachment × Option GoError)) :=
  [ (str "github", handleGitHubStatus w),
    (str "bitbucket", handleBitbucketStatus w),
    (str "npmjs", handleNpmjsStatus w),
    (str "disqus", handleDisqusStatus w),
    (str "cloudflare", handleCloudflareStatus w) ]

/-- The panic of the first check that panics, if any. -/
def firstPanic : List (GoString × Outcome (Attachment × Option GoError)) → Option Panic
  | [] => none
  | (_, Outcome.panic p) :: _ => some p
  | _ :: rest => firstPanic rest

/-- The attachment that the goroutine of a registered check sends on the channel:
its error, if any, is dropped. -/
def sentBy (checks : List (GoString × Outcome (Attachment × Option GoError)))
    (name : GoString) : Option Attachment :=
  match checks.lookup name with
  | some (Outcome.ret (attachment, _)) => some attachment
  | _ => none

/-- The fan-out of `Work`: one goroutine per registered check, each sending its
attachment on an unbuffered channel, and a loop that receives `len(statuschecks)`
attachments in completion order.  A panic in a goroutine ends the process; with
fewer sends than receives the loop blocks. -/
def fanOut (checks : List (GoString × Outcome (Attachment × Option GoError)))
    (completion : List GoString) (response : Response) : Outcome Response :=
  match firstPanic checks with
  | some p => Outcome.panic p
  | none =>
    let sent := completion.filterMap (sentBy checks)
    if sent.length < checks.length then Outcome.blocked
    else Outcome.ret ((sent.take checks.length).foldl Response.AddAttachment response)

/-- An adapter call made by `Work`. -/
inductive Invocation
  | check (name : GoString)
  | domain (name : GoString)
  | aws
  deriving DecidableEq, Repr

/-- One run of `Work`: the adapter calls it made and how it ended. -/
structure Run where
  invoked : List Invocation
  outcome : Outcome (Response × Option GoError)
  deriving DecidableEq, Repr

/-- The end of `Work`: an envelope whose headline was never set is a no-match. -/
def finish (response : Response) : Outcome (Response × Option GoError) :=
  if response.Text = str "" then
    Outcome.ret (response, some (CreateNoMatchError (str "Nothing found")))
  else Outcome.ret (response, none)

/-- The guard `len(request.Text) > 6 && request.Text[:6] == "status"`: the slice is
evaluated only when the length test holds; `none` is a slice out of range. -/
def hasStatusPrefix (text : GoString) : Option Bool :=
  if text.length > 6 then
    match sliceTo text 6 with
    | none => none
    | some head => some (decide (head = str "status"))
  else some false

/-- The method `StatusPlugin.Work`. -/
def Work (w : World) (request : Request) : Run :=
  let statuschecks := statuschecks w
  let response : Response := {}
  if request.Text = str "status" then
    { invoked := statuschecks.map (fun check => Invocation.check check.1)
      outcome :=
        match fanOut statuschecks w.completion response with
        | Outcome.panic p => Outcome.panic p
        | Outcome.blocked => Outcome.blocked
        | Outcome.ret response =>
          finish ({ response with Text := str "Status results:" }).SetPublic }
  else if request.Text = str "status aws" then
    { invoked := [Invocation.aws]
      outcome :=
        match handleAWSStatus w with
        | Outcome.panic p => Outcome.panic p
        | Outcome.blocked => Outcome.blocked
        | Outcome.ret (attachments, _) =>
          let response := attachments.foldl Response.AddAttachment response
          finish ({ response with Text := str "Status results:" }).SetPublic }
  else
    match hasStatusPrefix request.Text with
    | none => { invoked := [], outcome := Outcome.panic Panic.routerSlice }
    | some false => { invoked := [], outcome := finish response }
    | some true =>
      match sliceFrom request.Text 7 with
      | none => { invoked := [], outcome := Outcome.panic Panic.routerSlice }
      | some tocheck =>
        match statuschecks.lookup tocheck with
        | some function =>
          { invoked := [Invocation.check tocheck]
            outcome :=
              match function with
              | Outcome.panic p => Outcome.panic p
              | Outcome.blocked => Outcome.blocked
              | Outcome.ret (_, some err) => Outcome.ret (response, some err)
              | Outcome.ret (attachment, none) =>
                let response := response.AddAttachment attachment
                finish ({ response with Text := str "Status results:" }).SetPublic }
        | none =>
          { invoked := [Invocation.domain tocheck]
            outcome :=
              match handleDomain w tocheck with
              | Outcome.panic p => Outcome.panic p
              | Outcome.blocked => Outcome.blocked
              | Outcome.ret (_, some err) => Outcome.ret (response, some err)
              | Outcome.ret (attachment, none) =>
                let response := response.AddAttachment attachment
                finish ({ response with Text := str "The website is:" }).SetPublic }

/-! ## Concrete worlds -/

/-- A response whose body decodes to oracle code 1 and to a "good" last message. -/
def upResponse : HttpResponse :=
  { decodeStatusCode := Except.ok 1
    decodeLastMessage := Except.ok (str "good", str "All systems operational") }

/-- A status page without incidents and without event rows. -/
def quietPage : Document :=
  { statusText := str "All Systems Operational"
    pageStatusClasses := [str "page-status", str "status-none"]
    eventRows := [] }

/-- A world where every outbound call succeeds and reports good health; the
fan-out completes in the reverse of the registration order. -/
def calmWorld : World :=
  { httpGet := fun _ => (some upResponse, none)
    newDocument := fun _ => Except.ok quietPage
    completion := [str "cloudflare", str "disqus", str "npmjs", str "bitbucket", str "github"] }

/-- A world where no outbound call gets through: `http.Get` returns no response
and an error, `goquery.NewDocument` returns an error. -/
def offlineWorld : World :=
  { httpGet := fun _ => (none, some (GoError.upstream 1))
    newDocument := fun _ => Except.error (GoError.upstream 2)
    completion := [str "github", str "bitbucket", str "npmjs", str "disqus", str "cloudflare"] }

/-- A world where every outbound call fails but `http.Get` still hands back a
response: every registered check returns an error. -/
def failingWorld : World :=
  { httpGet := fun _ => (some upResponse, some (GoError.upstream 3))
    newDocument := fun _ => Except.error (GoError.upstream 4)
    completion := [str "npmjs", str "github", str "cloudflare", str "bitbucket", str "disqus"] }

/-- A world whose domain oracle answers with the given status code. -/
def oracleWorld (statusCode : Int) : World :=
  { calmWorld with
    httpGet := fun _ =>
      (some { decodeStatusCode := Except.ok statusCode
              decodeLastMessage := Except.error (GoError.upstream 5) }, none) }

/-- A world whose AWS status board shows the given event rows. -/
def boardWorld (rows : List (List GoString)) : World :=
  { calmWorld with
    newDocument := fun _ => Except.ok { quietPage with eventRows := rows } }

/-! ## The rows of the status board, as the specification describes them -/

/-- The trimmed status message of a row. -/
def rowMessage (s : List GoString) : GoString := stringsTrim (tdText s 2) (str " \n")

/-- A row is abnormal when its trimmed status message is neither empty nor
"Service is operating normally". -/
def isAbnormal (s : List GoString) : Bool :=
  decide (rowMessage s ≠ str "Service is operating normally" ∧ rowMessage s ≠ str "")

/-- The message of a row as it is shown: the "more" marker removed once and a line
break added after every full stop. -/
def shownMessage (s : List GoString) : GoString :=
  stringsReplace (stringsReplace (rowMessage s) moreMarker (str "\n") 1) (str ".") (str ".\n") (-1)

/-- The record of an abnormal row: titled with the service, severity "warning" when
the shown message starts with "[RESOLVED]" and "danger" otherwise. -/
def rowRecord (s : List GoString) : Attachment :=
  { Title := tdText s 1
    Text := shownMessage s
    Color := if (shownMessage s).take 10 = str "[RESOLVED]" then str "warning" else str "danger" }

/-- The records of the abnormal rows of a page, in page order. -/
def rowRecords (rows : List (List GoString)) : List Attachment :=
  (rows.filter isAbnormal).map rowRecord

/-! ## Literals and basic facts -/

theorem str_status : str "status" = [115, 116, 97, 116, 117, 115] := by decide

theorem str_status_space : str "status " = [115, 116, 97, 116, 117, 115, 32] := by decide

theorem str_status_aws :
    str "status aws" = [115, 116, 97, 116, 117, 115, 32, 97, 119, 115] := by decide

theorem str_aws : str "aws" = [97, 119, 115] := by decide

theorem str_empty : str "" = [] := by decide

theorem statuschecks_keys (w : World) :
    (statuschecks w).map Prod.fst =
      [str "github", str "bitbucket", str "npmjs", str "disqus", str "cloudflare"] := rfl

theorem statuschecks_length (w : World) : (statuschecks w).length = 5 := rfl

theorem handleStatusPageIo_ne_panic (w : World) (attachment : Attachment) (p : Panic) :
    handleStatusPageIo w attachment ≠ Outcome.panic p := by
  unfold handleStatusPageIo
  split
  · simp
  · split_ifs <;> simp

theorem handleGitHubStatus_ne_routerSlice (w : World) :
    handleGitHubStatus w ≠ Outcome.panic Panic.routerSlice := by
  unfold handleGitHubStatus
  split
  · simp
  · simp
  · split
    · simp
    · split_ifs <;> simp

theorem handleDomain_ne_routerSlice (w : World) (domain : GoString) :
    handleDomain w domain ≠ Outcome.panic Panic.routerSlice := by
  unfold handleDomain
  split
  · simp
  · simp
  · split
    · simp
    · split_ifs <;> simp

theorem eachRow_ne_routerSlice (st : ScanState) (s : List GoString) :
    eachRow st s ≠ Outcome.panic Panic.routerSlice := by
  unfold eachRow
  dsimp only
  split_ifs
  · split
    · simp
    · split_ifs <;> simp
  · simp

theorem scanRows_ne_routerSlice (rows : List (List GoString)) (st : ScanState) :
    scanRows rows st ≠ Outcome.panic Panic.routerSlice := by
  induction rows generalizing st with
  | nil => simp [scanRows]
  | cons s rest ih =>
    unfold scanRows
    split
    · exact ih _
    · rename_i p h
      intro hp
      injection hp with hp
      subst hp
      exact eachRow_ne_routerSlice st s h
    · simp

theorem handleAWSStatus_ne_routerSlice (w : World) :
    handleAWSStatus w ≠ Outcome.panic Panic.routerSlice := by
  unfold handleAWSStatus
  dsimp only
  split
  · simp
  · split
    · rename_i p h
      intro hp
      injection hp with hp
      subst hp
      exact scanRows_ne_routerSlice _ _ h
    · simp
    · simp

theorem check_ne_routerSlice (w : World) (name : GoString)
    (function : Outcome (Attachment × Option GoError))
    (h : (name, function) ∈ statuschecks w) : function ≠ Outcome.panic Panic.routerSlice := by
  have hg := handleGitHubStatus_ne_routerSlice w
  have hs := fun a => handleStatusPageIo_ne_panic w a Panic.routerSlice
  simp only [statuschecks, List.mem_cons, Prod.mk.injEq, List.mem_singleton, List.not_mem_nil,
    or_false] at h
  rcases h with h | h | h | h | h <;> rw [h.2]
  · exact hg
  · exact hs _
  · exact hs _
  · exact hs _
  · exact hs _

theorem mem_of_lookup {β : Type} (checks : List (GoString × β)) (name : GoString) (b : β)
    (h : checks.lookup name = some b) : (name, b) ∈ checks := by
  induction checks with
  | nil => simp at h
  | cons c rest ih =>
    obtain ⟨k, v⟩ := c
    simp only [List.lookup] at h
    split at h
    · rename_i heq
      have hk : name = k := by simpa using heq
      simp at h
      simp [hk, h]
    · exact List.mem_cons_of_mem _ (ih h)

theorem firstPanic_mem (checks : List (GoString × Outcome (Attachment × Option GoError)))
    (p : Panic) (h : firstPanic checks = some p) : ∃ name, (name, Outcome.panic p) ∈ checks := by
  induction checks with
  | nil => simp [firstPanic] at h
  | cons c rest ih =>
    obtain ⟨k, v⟩ := c
    cases v with
    | panic q =>
      simp only [firstPanic, Option.some.injEq] at h
      exact ⟨k, by simp [h]⟩
    | ret a =>
      simp only [firstPanic] at h
      obtain ⟨name, hn⟩ := ih h
      exact ⟨name, List.mem_cons_of_mem _ hn⟩
    | blocked =>
      simp only [firstPanic] at h
      obtain ⟨name, hn⟩ := ih h
      exact ⟨name, List.mem_cons_of_mem _ hn⟩

theorem hasStatusPrefix_ne_none (text : GoString) : hasStatusPrefix text ≠ none := by
  unfold hasStatusPrefix sliceTo
  split_ifs with h1 h2
  · simp
  · omega
  · simp

theorem hasStatusPrefix_true (text : GoString) (h : hasStatusPrefix text = some true) :
    6 < text.length ∧ text.take 6 = str "status" := by
  unfold hasStatusPrefix sliceTo at h
  split_ifs at h with h1 h2
  · simp at h
    exact ⟨h1, h⟩
  · simp at h

theorem finish_ne_panic (response : Response) (p : Panic) :
    finish response ≠ Outcome.panic p := by
  unfold finish
  split_ifs <;> simp

/-! ## The router's slices (C10) -/

/-- C10: for every command text of any length the fixed-offset cuts of `Work` stay in
bounds: `Work` never panics with a slice out of range of its own, `request.Text[:6]`
is defined whenever the length test `len > 6` that guards it holds, and
`request.Text[7:]` is defined whenever the guard was passed. -/
theorem Work_slices_in_bounds (w : World) (request : Request) :
    (Work w request).outcome ≠ Outcome.panic Panic.routerSlice ∧
    (6 < request.Text.length → sliceTo request.Text 6 = some (request.Text.take 6)) ∧
    (hasStatusPrefix request.Text = some true →
      7 ≤ request.Text.length ∧ sliceFrom request.Text 7 = some (request.Text.drop 7)) := by
  have hcut : hasStatusPrefix request.Text = some true →
      7 ≤ request.Text.length ∧ sliceFrom request.Text 7 = some (request.Text.drop 7) := by
    intro h
    have h6 := (hasStatusPrefix_true _ h).1
    refine ⟨h6, ?_⟩
    unfold sliceFrom
    rw [if_pos (show 7 ≤ request.Text.length from h6)]
  refine ⟨?_, ?_, hcut⟩
  · unfold Work
    dsimp only
    split_ifs with h1 h2
    · dsimp only
      split
      · rename_i p hp
        intro hq
        injection hq with hq
        subst hq
        unfold fanOut at hp
        split at hp
        · rename_i q hq
          injection hp with hp
          subst hp
          obtain ⟨name, hn⟩ := firstPanic_mem _ _ hq
          exact check_ne_routerSlice w name _ hn rfl
        · dsimp only at hp
          split_ifs at hp
      · simp
      · exact finish_ne_panic _ _
    · dsimp only
      split
      · rename_i p hp
        intro hq
        injection hq with hq
        subst hq
        exact handleAWSStatus_ne_routerSlice w hp
      · simp
      · exact finish_ne_panic _ _
    · split
      · rename_i hnone
        exact absurd hnone (hasStatusPrefix_ne_none _)
      · dsimp only
        exact finish_ne_panic _ _
      · rename_i htrue
        rw [(hcut htrue).2]
        dsimp only
        split
        · rename_i function hl
          dsimp only
          split
          · rename_i p
            intro hq
            injection hq with hq
            subst hq
            exact check_ne_routerSlice w _ _ (mem_of_lookup _ _ _ hl) rfl
          · simp
          · simp
          · exact finish_ne_panic _ _
        · dsimp only
          split
          · rename_i p hp
            intro hq
            injection hq with hq
            subst hq
            exact handleDomain_ne_routerSlice w _ hp
          · simp
          · simp
          · exact finish_ne_panic _ _
  · intro h6
    unfold sliceTo
    rw [if_pos (Nat.le_of_lt h6)]

/-! ## Routing of "status " followed by a remainder -/

theorem status_space_ne_status (r : GoString) : str "status " ++ r ≠ str "status" := by
  intro h
  have := congrArg List.length h
  rw [str_status_space, str_status] at this
  simp at this

theorem status_space_eq_aws (r : GoString) :
    str "status " ++ r = str "status aws" ↔ r = str "aws" := by
  rw [str_status_space, str_status_aws, str_aws]
  simp

theorem hasStatusPrefix_status_space (r : GoString) :
    hasStatusPrefix (str "status " ++ r) = some true := by
  unfold hasStatusPrefix sliceTo
  rw [str_status_space, str_status]
  simp

theorem sliceFrom_status_space (r : GoString) : sliceFrom (str "status " ++ r) 7 = some r := by
  unfold sliceFrom
  rw [str_status_space]
  simp

theorem lookup_aws (w : World) : (statuschecks w).lookup (str "aws") = none := by
  unfold statuschecks
  simp only [List.lookup]
  have h1 : (str "aws" == str "github") = false := by decide
  have h2 : (str "aws" == str "bitbucket") = false := by decide
  have h3 : (str "aws" == str "npmjs") = false := by decide
  have h4 : (str "aws" == str "disqus") = false := by decide
  have h5 : (str "aws" == str "cloudflare") = false := by decide
  simp only [h1, h2, h3, h4, h5]

theorem finish_results (attachments : List Attachment) :
    finish { Text := str "Status results:", Attachments := attachments,
             visibility := Visibility.Public } =
      Outcome.ret ({ Text := str "Status results:", Attachments := attachments,
                     visibility := Visibility.Public }, none) := by
  have h : str "Status results:" ≠ str "" := by decide
  unfold finish
  rw [if_neg h]

theorem finish_website (attachments : List Attachment) :
    finish { Text := str "The website is:", Attachments := attachments,
             visibility := Visibility.Public } =
      Outcome.ret ({ Text := str "The website is:", Attachments := attachments,
                     visibility := Visibility.Public }, none) := by
  have h : str "The website is:" ≠ str "" := by decide
  unfold finish
  rw [if_neg h]

theorem lookup_ne_aws (w : World) (r : GoString)
    (function : Outcome (Attachment × Option GoError))
    (h : (statuschecks w).lookup r = some function) : r ≠ str "aws" := by
  intro hr
  rw [hr, lookup_aws] at h
  simp at h

/-- The router on "status " + r for a registered short name r whose check returns
an error: only that check is called and the zero envelope comes back with the error. -/
theorem Work_route_check_error (w : World) (r : GoString) (attachment : Attachment)
    (err : GoError)
    (h : (statuschecks w).lookup r = some (Outcome.ret (attachment, some err))) :
    Work w { Text := str "status " ++ r } =
      { invoked := [Invocation.check r], outcome := Outcome.ret ({}, some err) } := by
  have hr := lookup_ne_aws w r _ h
  unfold Work
  dsimp only
  rw [if_neg (status_space_ne_status r), if_neg (mt (status_space_eq_aws r).1 hr),
    hasStatusPrefix_status_space]
  dsimp only
  rw [sliceFrom_status_space]
  dsimp only
  rw [h]

/-- The router on "status " + r for a registered short name r whose check succeeds. -/
theorem Work_route_check_ok (w : World) (r : GoString) (attachment : Attachment)
    (h : (statuschecks w).lookup r = some (Outcome.ret (attachment, none))) :
    Work w { Text := str "status " ++ r } =
      { invoked := [Invocation.check r]
        outcome :=
          Outcome.ret
            ({ Text := str "Status results:", Attachments := [attachment],
               visibility := Visibility.Public }, none) } := by
  have hr := lookup_ne_aws w r _ h
  unfold Work
  dsimp only
  rw [if_neg (status_space_ne_status r), if_neg (mt (status_space_eq_aws r).1 hr),
    hasStatusPrefix_status_space]
  dsimp only
  rw [sliceFrom_status_space]
  dsimp only
  rw [h]
  dsimp only
  rw [← finish_results [attachment]]
  rfl

/-- The router on "status " + r for a remainder r that is neither "aws" nor a
registered short name, when the domain adapter returns an error. -/
theorem Work_route_domain_error (w : World) (r : GoString) (attachment : Attachment)
    (err : GoError) (hr : r ≠ str "aws") (h : (statuschecks w).lookup r = none)
    (hd : handleDomain w r = Outcome.ret (attachment, some err)) :
    Work w { Text := str "status " ++ r } =
      { invoked := [Invocation.domain r], outcome := Outcome.ret ({}, some err) } := by
  unfold Work
  dsimp only
  rw [if_neg (status_space_ne_status r), if_neg (mt (status_space_eq_aws r).1 hr),
    hasStatusPrefix_status_space]
  dsimp only
  rw [sliceFrom_status_space]
  dsimp only
  rw [h]
  dsimp only
  rw [hd]

/-- The router on "status " + r for a remainder r that is neither "aws" nor a
registered short name, when the domain adapter succeeds. -/
theorem Work_route_domain_ok (w : World) (r : GoString) (attachment : Attachment)
    (hr : r ≠ str "aws") (h : (statuschecks w).lookup r = none)
    (hd : handleDomain w r = Outcome.ret (attachment, none)) :
    Work w { Text := str "status " ++ r } =
      { invoked := [Invocation.domain r]
        outcome :=
          Outcome.ret
            ({ Text := str "The website is:", Attachments := [attachment],
               visibility := Visibility.Public }, none) } := by
  unfold Work
  dsimp only
  rw [if_neg (status_space_ne_status r), if_neg (mt (status_space_eq_aws r).1 hr),
    hasStatusPrefix_status_space]
  dsimp only
  rw [sliceFrom_status_space]
  dsimp only
  rw [h]
  dsimp only
  rw [hd]
  dsimp only
  rw [← finish_website [attachment]]
  rfl

/-! ## Errors of a named check (C3) -/

/-- C3: for the command text "status " + name where name is a registered short name
(the lookup in `statuschecks` finds its check), if that check returns an error then
`Work` calls only that check and returns that same error together with the zero
envelope: no records, empty headline, not public. -/
theorem Work_named_check_error (w : World) (name : GoString) (attachment : Attachment)
    (err : GoError)
    (h : (statuschecks w).lookup name = some (Outcome.ret (attachment, some err))) :
    Work w { Text := str "status " ++ name } =
      { invoked := [Invocation.check name]
        outcome :=
          Outcome.ret
            ({ Text := str "", Attachments := [], visibility := Visibility.Private },
             some err) } := by
  rw [Work_route_check_error w name attachment err h]
  rfl

/-- C3 at a concrete input: in a world where the status page of Bitbucket cannot be
fetched, "status bitbucket" returns that fetch error and the zero envelope. -/
theorem Work_named_check_error_witness :
    (statuschecks failingWorld).lookup (str "bitbucket") =
        some (Outcome.ret
          ({ Title := str "Bitbucket", PreText := str "http://status.bitbucket.org" },
           some (GoError.upstream 4))) ∧
    Work failingWorld { Text := str "status " ++ str "bitbucket" } =
      { invoked := [Invocation.check (str "bitbucket")]
        outcome :=
          Outcome.ret
            ({ Text := str "", Attachments := [], visibility := Visibility.Private },
             some (GoError.upstream 4)) } :=
  ⟨by decide,
   Work_named_check_error failingWorld (str "bitbucket")
     { Title := str "Bitbucket", PreText := str "http://status.bitbucket.org" }
     (GoError.upstream 4) (by decide)⟩

/-! ## A named check or a domain (C8) -/

theorem lookup_none_of_not_mem (w : World) (r : GoString)
    (h : r ∉ (statuschecks w).map Prod.fst) : (statuschecks w).lookup r = none := by
  rw [statuschecks_keys] at h
  simp only [List.mem_cons, List.mem_singleton, List.not_mem_nil, or_false, not_or] at h
  obtain ⟨h1, h2, h3, h4, h5⟩ := h
  unfold statuschecks
  simp only [List.lookup]
  have e1 : (r == str "github") = false := by simpa using h1
  have e2 : (r == str "bitbucket") = false := by simpa using h2
  have e3 : (r == str "npmjs") = false := by simpa using h3
  have e4 : (r == str "disqus") = false := by simpa using h4
  have e5 : (r == str "cloudflare") = false := by simpa using h5
  simp only [e1, e2, e3, e4, e5]

/-- C8: for every command text "status " + r other than "status aws": when r is a
registered short name whose check succeeds, `Work` calls only that check and returns
exactly its record with headline "Status results:", public; when r is not a
registered short name and the domain adapter succeeds on r, `Work` calls only the
domain adapter, with exactly r, and returns exactly its record with headline
"The website is:", public.  The exact texts "status aws" and "status" are taken by
the earlier cases: they call the AWS adapter, respectively every registered check. -/
theorem Work_named_or_domain (w : World) (r : GoString) (hr : r ≠ str "aws") :
    (∀ attachment : Attachment,
      (statuschecks w).lookup r = some (Outcome.ret (attachment, none)) →
      Work w { Text := str "status " ++ r } =
        { invoked := [Invocation.check r]
          outcome :=
            Outcome.ret
              ({ Text := str "Status results:", Attachments := [attachment],
                 visibility := Visibility.Public }, none) }) ∧
    (∀ attachment : Attachment,
      r ∉ (statuschecks w).map Prod.fst →
      handleDomain w r = Outcome.ret (attachment, none) →
      Work w { Text := str "status " ++ r } =
        { invoked := [Invocation.domain r]
          outcome :=
            Outcome.ret
              ({ Text := str "The website is:", Attachments := [attachment],
                 visibility := Visibility.Public }, none) }) ∧
    (Work w { Text := str "status " ++ str "aws" }).invoked = [Invocation.aws] ∧
    (Work w { Text := str "status" }).invoked =
      [Invocation.check (str "github"), Invocation.check (str "bitbucket"),
       Invocation.check (str "npmjs"), Invocation.check (str "disqus"),
       Invocation.check (str "cloudflare")] := by
  refine ⟨?_, ?_, ?_, ?_⟩
  · intro attachment h
    exact Work_route_check_ok w r attachment h
  · intro attachment hmem hd
    exact Work_route_domain_ok w r attachment hr (lookup_none_of_not_mem w r hmem) hd
  · have h1 : str "status " ++ str "aws" ≠ str "status" := by decide
    have h2 : str "status " ++ str "aws" = str "status aws" := by decide
    unfold Work
    dsimp only
    rw [if_neg h1, if_pos h2]
  · unfold Work
    dsimp only
    rw [if_pos rfl]
    rfl

/-- C8 at concrete inputs: in a world where everything is healthy, "status disqus"
returns the one record of the Disqus check and "status example.com" the one record
of the domain probe. -/
theorem Work_named_or_domain_witness :
    Work calmWorld { Text := str "status " ++ str "disqus" } =
      { invoked := [Invocation.check (str "disqus")]
        outcome :=
          Outcome.ret
            ({ Text := str "Status results:"
               Attachments :=
                 [{ Title := str "Disqus", PreText := str "http://status.disqus.com",
                    Text := str "All Systems Operational", Color := str "good" }]
               visibility := Visibility.Public }, none) } ∧
    Work calmWorld { Text := str "status " ++ str "example.com" } =
      { invoked := [Invocation.domain (str "example.com")]
        outcome :=
          Outcome.ret
            ({ Text := str "The website is:"
               Attachments :=
                 [{ Title := str "example.com", Text := str ":thumbsup:",
                    Color := str "good" }]
               visibility := Visibility.Public }, none) } :=
  ⟨(Work_named_or_domain calmWorld (str "disqus") (by decide)).1 _ (by decide),
   (Work_named_or_domain calmWorld (str "example.com") (by decide)).2.1 _ (by decide)
     (by decide)⟩

/-! ## Texts outside the documented triggers (C1) -/

/-- Every text that the router's own tests reject (not "status", not "status aws",
and not longer than six bytes with first six bytes "status") ends in the no-match
error with the zero envelope and without any adapter call. -/
theorem Work_noMatch (w : World) (request : Request)
    (h1 : request.Text ≠ str "status") (h2 : request.Text ≠ str "status aws")
    (h3 : ¬ (6 < request.Text.length ∧ request.Text.take 6 = str "status")) :
    Work w request =
      { invoked := []
        outcome := Outcome.ret ({}, some (CreateNoMatchError (str "Nothing found"))) } := by
  have hp : hasStatusPrefix request.Text = some false := by
    unfold hasStatusPrefix sliceTo
    split_ifs with h6 h6'
    · have : request.Text.take 6 ≠ str "status" := fun h => h3 ⟨h6, h⟩
      simp [this]
    · omega
    · rfl
  unfold Work
  dsimp only
  rw [if_neg h1, if_neg h2, hp]
  rfl

/-- C1, the failing input: the text "statusXgithub" is none of the documented
triggers (it is not "status", not "status aws", and does not start with "status "),
yet `Work` skips its seventh byte unchecked, calls the GitHub check and returns its
record in a successful public envelope instead of the no-match error. -/
theorem Work_statusXgithub :
    str "statusXgithub" ≠ str "status" ∧ str "statusXgithub" ≠ str "status aws" ∧
    ¬ (str "status " <+: str "statusXgithub") ∧
    Work calmWorld { Text := str "statusXgithub" } =
      { invoked := [Invocation.check (str "github")]
        outcome :=
          Outcome.ret
            ({ Text := str "Status results:"
               Attachments :=
                 [{ Title := str "GitHub", PreText := str "http://status.github.com",
                    Text := str "All systems operational", Color := str "good" }]
               visibility := Visibility.Public }, none) } := by
  decide

/-! ## The domain probe (C4, C9) -/

/-- C9, the failing input: when `http.Get` returns no response and an error, the
deferred `resp.Body.Close()` dereferences the nil response before the error is
looked at: `handleDomain` panics instead of returning the transport error, and so
does `handleGitHubStatus`, and with them `Work` on "status example.com". -/
theorem handleDomain_unreachable_panics :
    (offlineWorld.httpGet (str "https://isitup.org/" ++ str "example.com" ++ str ".json")).1.isNone
      = true ∧
    (offlineWorld.httpGet (str "https://isitup.org/" ++ str "example.com" ++ str ".json")).2
      = some (GoError.upstream 1) ∧
    handleDomain offlineWorld (str "example.com") = Outcome.panic Panic.nilResponse ∧
    handleGitHubStatus offlineWorld = Outcome.panic Panic.nilResponse ∧
    (Work offlineWorld { Text := str "status example.com" }).outcome =
      Outcome.panic Panic.nilResponse := by
  decide

/-- The decode half of C9 holds: with a response in hand, a body that cannot be
decoded makes `handleDomain` return the decode error. -/
theorem handleDomain_decode_error (w : World) (domain : GoString) (resp : HttpResponse)
    (err : GoError)
    (hget : w.httpGet (str "https://isitup.org/" ++ domain ++ str ".json") = (some resp, none))
    (hdec : resp.decodeStatusCode = Except.error err) :
    handleDomain w domain = Outcome.ret ({ Title := domain }, some err) := by
  unfold handleDomain
  dsimp only
  rw [hget]
  dsimp only
  rw [hdec]

/-- With a response in hand, a transport error is returned as it is. -/
theorem handleDomain_transport_error (w : World) (domain : GoString) (resp : HttpResponse)
    (err : GoError)
    (hget : w.httpGet (str "https://isitup.org/" ++ domain ++ str ".json") =
      (some resp, some err)) :
    handleDomain w domain = Outcome.ret ({ Title := domain }, some err) := by
  unfold handleDomain
  dsimp only
  rw [hget]

/-- Whenever `Work` calls the domain adapter, with whatever text it was reached,
and the adapter returns an error, `Work` returns that error with the zero envelope. -/
theorem Work_domain_error (w : World) (request : Request) (domain : GoString)
    (attachment : Attachment) (err : GoError)
    (hinv : (Work w request).invoked = [Invocation.domain domain])
    (hd : handleDomain w domain = Outcome.ret (attachment, some err)) :
    (Work w request).outcome = Outcome.ret ({}, some err) := by
  unfold Work at hinv ⊢
  dsimp only at hinv ⊢
  by_cases h1 : request.Text = str "status"
  · rw [if_pos h1] at hinv
    simp [statuschecks] at hinv
  · rw [if_neg h1] at hinv ⊢
    by_cases h2 : request.Text = str "status aws"
    · rw [if_pos h2] at hinv
      simp at hinv
    · rw [if_neg h2] at hinv ⊢
      cases hp : hasStatusPrefix request.Text with
      | none =>
        rw [hp] at hinv
        simp at hinv
      | some b =>
        cases b with
        | false =>
          rw [hp] at hinv
          simp at hinv
        | true =>
          rw [hp] at hinv
          dsimp only at hinv ⊢
          cases hs : sliceFrom request.Text 7 with
          | none =>
            rw [hs] at hinv
            simp at hinv
          | some tocheck =>
            rw [hs] at hinv
            dsimp only at hinv ⊢
            cases hl : (statuschecks w).lookup tocheck with
            | some function =>
              rw [hl] at hinv
              simp at hinv
            | none =>
              rw [hl] at hinv
              dsimp only at hinv ⊢
              simp only [List.cons.injEq, Invocation.domain.injEq, and_true] at hinv
              subst hinv
              rw [hd]

/-- C4, the claimed error text fails: for oracle code 3 the error that `handleDomain`
returns is `errors.New("Not a valid domain")`, with a capital N, and no result of the
call carries the text "not a valid domain". -/
theorem handleDomain_error_text :
    handleDomain (oracleWorld 3) (str "example.com") =
      Outcome.ret ({ Title := str "example.com" },
        some (GoError.errorsNew (str "Not a valid domain"))) ∧
    ¬ ∃ attachment : Attachment,
      handleDomain (oracleWorld 3) (str "example.com") =
        Outcome.ret (attachment, some (GoError.errorsNew (str "not a valid domain"))) := by
  have hv : handleDomain (oracleWorld 3) (str "example.com") =
      Outcome.ret ({ Title := str "example.com" },
        some (GoError.errorsNew (str "Not a valid domain"))) := by decide
  refine ⟨hv, ?_⟩
  rintro ⟨attachment, h⟩
  rw [hv] at h
  injection h with h
  injection h with _ h
  injection h with h
  injection h with h
  revert h
  decide

/-- C4, amended: for every domain name and every decoded oracle status code,
`handleDomain` returns, for code 1, no error and a record titled with the domain,
severity "good" and body ":thumbsup:"; for code 2, no error and a record titled with
the domain, severity "danger" and body ":thumbsdown:"; for every other code, the
error "Not a valid domain", and in that case `Work`, whenever it called the domain
adapter with that name, adds no record to the envelope: it returns the error with the
zero envelope. -/
theorem handleDomain_codes (w : World) (domain : GoString) (resp : HttpResponse)
    (statusCode : Int)
    (hget : w.httpGet (str "https://isitup.org/" ++ domain ++ str ".json") = (some resp, none))
    (hdec : resp.decodeStatusCode = Except.ok statusCode) :
    (statusCode = 1 →
      handleDomain w domain =
        Outcome.ret
          ({ Title := domain, Color := str "good", Text := str ":thumbsup:" }, none)) ∧
    (statusCode = 2 →
      handleDomain w domain =
        Outcome.ret
          ({ Title := domain, Color := str "danger", Text := str ":thumbsdown:" }, none)) ∧
    (statusCode ≠ 1 → statusCode ≠ 2 →
      handleDomain w domain =
        Outcome.ret ({ Title := domain }, some (GoError.errorsNew (str "Not a valid domain"))) ∧
      ∀ request : Request, (Work w request).invoked = [Invocation.domain domain] →
        (Work w request).outcome =
          Outcome.ret
            ({ Text := str "", Attachments := [], visibility := Visibility.Private },
             some (GoError.errorsNew (str "Not a valid domain")))) := by
  have hval : handleDomain w domain =
      if statusCode = 1 then
        Outcome.ret ({ Title := domain, Color := str "good", Text := str ":thumbsup:" }, none)
      else if statusCode = 2 then
        Outcome.ret ({ Title := domain, Color := str "danger", Text := str ":thumbsdown:" }, none)
      else
        Outcome.ret ({ Title := domain }, some (GoError.errorsNew (str "Not a valid domain"))) := by
    unfold handleDomain
    dsimp only
    rw [hget]
    dsimp only
    rw [hdec]
  refine ⟨?_, ?_, ?_⟩
  · intro h1
    rw [hval, if_pos h1]
  · intro h2
    have h1 : statusCode ≠ 1 := by omega
    rw [hval, if_neg h1, if_pos h2]
  · intro h1 h2
    have hd : handleDomain w domain =
        Outcome.ret ({ Title := domain }, some (GoError.errorsNew (str "Not a valid domain"))) := by
      rw [hval, if_neg h1, if_neg h2]
    refine ⟨hd, ?_⟩
    intro request hinv
    rw [Work_domain_error w request domain _ _ hinv hd]
    rfl

/-- C4 amended, at concrete inputs: oracle codes 1, 2 and 0 for "example.com". -/
theorem handleDomain_codes_witness :
    handleDomain (oracleWorld 1) (str "example.com") =
      Outcome.ret
        ({ Title := str "example.com", Color := str "good", Text := str ":thumbsup:" }, none) ∧
    handleDomain (oracleWorld 2) (str "example.com") =
      Outcome.ret
        ({ Title := str "example.com", Color := str "danger", Text := str ":thumbsdown:" },
         none) ∧
    handleDomain (oracleWorld 0) (str "example.com") =
      Outcome.ret ({ Title := str "example.com" },
        some (GoError.errorsNew (str "Not a valid domain"))) ∧
    (Work (oracleWorld 0) { Text := str "status example.com" }).invoked =
      [Invocation.domain (str "example.com")] ∧
    (Work (oracleWorld 0) { Text := str "status example.com" }).outcome =
      Outcome.ret
        ({ Text := str "", Attachments := [], visibility := Visibility.Private },
         some (GoError.errorsNew (str "Not a valid domain"))) :=
  ⟨(handleDomain_codes (oracleWorld 1) (str "example.com") _ 1 rfl rfl).1 rfl,
   (handleDomain_codes (oracleWorld 2) (str "example.com") _ 2 rfl rfl).2.1 rfl,
   ((handleDomain_codes (oracleWorld 0) (str "example.com") _ 0 rfl rfl).2.2
      (by decide) (by decide)).1,
   by decide,
   ((handleDomain_codes (oracleWorld 0) (str "example.com") _ 0 rfl rfl).2.2
      (by decide) (by decide)).2 _ (by decide)⟩

/-! ## The AWS status board when the page cannot be fetched (C7) -/

/-- C7, the claimed empty list fails: when the page cannot be fetched,
`handleAWSStatus` hands back the error together with one record, the placeholder
appended before the fetch, and `Work` publishes that placeholder as a success. -/
theorem handleAWSStatus_offline_placeholder :
    handleAWSStatus offlineWorld =
      Outcome.ret
        ([{ Title := str "AWS", PreText := str "http://status.aws.amazon.com" }],
         some (GoError.upstream 2)) ∧
    (¬ ∃ err : GoError, handleAWSStatus offlineWorld = Outcome.ret ([], some err)) ∧
    (Work offlineWorld { Text := str "status aws" }).outcome =
      Outcome.ret
        ({ Text := str "Status results:"
           Attachments := [{ Title := str "AWS", PreText := str "http://status.aws.amazon.com" }]
           visibility := Visibility.Public }, none) := by
  have hv : handleAWSStatus offlineWorld =
      Outcome.ret
        ([{ Title := str "AWS", PreText := str "http://status.aws.amazon.com" }],
         some (GoError.upstream 2)) := by decide
  refine ⟨hv, ?_, by decide⟩
  rintro ⟨err, h⟩
  rw [hv] at h
  injection h with h
  injection h with h _
  exact List.cons_ne_nil _ _ h

/-- C7, amended: when fetching or parsing the status page fails, `handleAWSStatus`
returns the error together with exactly one record, the unfilled placeholder of the
summary (title "AWS", preceding context "http://status.aws.amazon.com", empty body
and severity) and no row record; `Work` on "status aws" drops the error and returns
that placeholder in a public envelope with headline "Status results:". -/
theorem handleAWSStatus_fetch_error (w : World) (err : GoError)
    (h : w.newDocument (str "http://status.aws.amazon.com") = Except.error err) :
    handleAWSStatus w =
      Outcome.ret
        ([{ Title := str "AWS", PreText := str "http://status.aws.amazon.com" }], some err) ∧
    Work w { Text := str "status aws" } =
      { invoked := [Invocation.aws]
        outcome :=
          Outcome.ret
            ({ Text := str "Status results:"
               Attachments :=
                 [{ Title := str "AWS", PreText := str "http://status.aws.amazon.com" }]
               visibility := Visibility.Public }, none) } := by
  have hv : handleAWSStatus w =
      Outcome.ret
        ([{ Title := str "AWS", PreText := str "http://status.aws.amazon.com" }], some err) := by
    unfold handleAWSStatus
    dsimp only
    rw [h]
    rfl
  refine ⟨hv, ?_⟩
  have h1 : str "status aws" ≠ str "status" := by decide
  unfold Work
  dsimp only
  rw [if_neg h1, if_pos rfl, hv]
  dsimp only
  rw [← finish_results]
  rfl

/-- C7 amended, at a concrete input: a world in which every fetch fails. -/
theorem handleAWSStatus_fetch_error_witness :
    handleAWSStatus failingWorld =
      Outcome.ret
        ([{ Title := str "AWS", PreText := str "http://status.aws.amazon.com" }],
         some (GoError.upstream 4)) ∧
    Work failingWorld { Text := str "status aws" } =
      { invoked := [Invocation.aws]
        outcome :=
          Outcome.ret
            ({ Text := str "Status results:"
               Attachments :=
                 [{ Title := str "AWS", PreText := str "http://status.aws.amazon.com" }]
               visibility := Visibility.Public }, none) } :=
  handleAWSStatus_fetch_error failingWorld (GoError.upstream 4) rfl

/-! ## The scan of the status board (C5, C6) -/

theorem eachRow_normal (st : ScanState) (s : List GoString) (h : isAbnormal s = false) :
    eachRow st s = Outcome.ret st := by
  unfold isAbnormal rowMessage at h
  unfold eachRow
  dsimp only
  rw [if_neg (by simpa using h)]

theorem eachRow_short (st : ScanState) (s : List GoString) (h : isAbnormal s = true)
    (hlen : (shownMessage s).length < 10) : eachRow st s = Outcome.panic Panic.messageSlice := by
  unfold isAbnormal rowMessage at h
  unfold shownMessage rowMessage at hlen
  unfold eachRow
  dsimp only
  rw [if_pos (by simpa using h)]
  unfold sliceTo
  rw [if_neg (by omega)]

theorem eachRow_abnormal (st : ScanState) (s : List GoString) (h : isAbnormal s = true)
    (hlen : 10 ≤ (shownMessage s).length) :
    eachRow st s =
      Outcome.ret
        { attachments := st.attachments ++ [rowRecord s]
          nrResolved := st.nrResolved + [rowRecord s].countP (fun a => a.Color = str "warning")
          nrProblems := st.nrProblems + [rowRecord s].countP (fun a => a.Color = str "danger") } := by
  have hdw : str "danger" ≠ str "warning" := by decide
  unfold isAbnormal rowMessage at h
  unfold eachRow
  dsimp only
  rw [if_pos (by simpa using h)]
  unfold sliceTo
  rw [if_pos (by unfold shownMessage rowMessage at hlen; exact hlen)]
  dsimp only
  by_cases hres : (shownMessage s).take 10 = str "[RESOLVED]"
  · have hres2 := hres
    unfold shownMessage rowMessage at hres2
    rw [if_pos hres2]
    simp [rowRecord, hres2, shownMessage, rowMessage, List.countP_cons, Ne.symm hdw]
  · have hres2 := hres
    unfold shownMessage rowMessage at hres2
    rw [if_neg hres2]
    simp [rowRecord, hres2, shownMessage, rowMessage, List.countP_cons, hdw]

/-- The scan of a page on which every abnormal row has a shown message of at least
ten bytes returns: it appends the records of the abnormal rows in page order and
counts the warnings and the dangers among them. -/
theorem scanRows_ret (rows : List (List GoString)) (st : ScanState)
    (hlen : ∀ s ∈ rows, isAbnormal s = true → 10 ≤ (shownMessage s).length) :
    scanRows rows st =
      Outcome.ret
        { attachments := st.attachments ++ rowRecords rows
          nrResolved :=
            st.nrResolved + (rowRecords rows).countP (fun a => a.Color = str "warning")
          nrProblems :=
            st.nrProblems + (rowRecords rows).countP (fun a => a.Color = str "danger") } := by
  induction rows generalizing st with
  | nil => simp [scanRows, rowRecords]
  | cons s rest ih =>
    have hrest : ∀ t ∈ rest, isAbnormal t = true → 10 ≤ (shownMessage t).length :=
      fun t ht => hlen t (List.mem_cons_of_mem _ ht)
    unfold scanRows
    cases hab : isAbnormal s with
    | false =>
      rw [eachRow_normal st s hab]
      dsimp only
      rw [ih st hrest]
      simp [rowRecords, hab]
    | true =>
      rw [eachRow_abnormal st s hab (hlen s (List.mem_cons_self _ _) hab)]
      dsimp only
      rw [ih _ hrest]
      simp [rowRecords, hab, List.countP_cons, Nat.add_assoc, Nat.add_comm]

/-- The scan of a page with an abnormal row whose shown message is shorter than ten
bytes panics at `message[:10]`. -/
theorem scanRows_panics (rows : List (List GoString)) (st : ScanState)
    (h : ∃ s ∈ rows, isAbnormal s = true ∧ (shownMessage s).length < 10) :
    scanRows rows st = Outcome.panic Panic.messageSlice := by
  induction rows generalizing st with
  | nil => simp at h
  | cons s rest ih =>
    unfold scanRows
    cases hab : isAbnormal s with
    | false =>
      rw [eachRow_normal st s hab]
      dsimp only
      apply ih
      obtain ⟨t, ht, hat, hlt⟩ := h
      rcases List.mem_cons.1 ht with rfl | ht
      · rw [hab] at hat
        cases hat
      · exact ⟨t, ht, hat, hlt⟩
    | true =>
      by_cases hlen : 10 ≤ (shownMessage s).length
      · rw [eachRow_abnormal st s hab hlen]
        dsimp only
        apply ih
        obtain ⟨t, ht, hat, hlt⟩ := h
        rcases List.mem_cons.1 ht with rfl | ht
        · omega
        · exact ⟨t, ht, hat, hlt⟩
      · rw [eachRow_short st s hab (by omega)]

/-- The summary by cases on the two counters. -/
theorem summarize_cases (mainAttachment : Attachment) (p r : Nat) :
    (summarize mainAttachment p r).Title = mainAttachment.Title ∧
    (0 < p →
      (summarize mainAttachment p r).Color = str "danger" ∧
      (summarize mainAttachment p r).Text =
        str "Nr of issues: " ++ strconvItoa p ++
          (if 0 < r then str "\nNr of resolved issues: " ++ strconvItoa r else str "")) ∧
    (p = 0 → 0 < r →
      (summarize mainAttachment p r).Color = str "warning" ∧
      (summarize mainAttachment p r).Text = str "Nr of resolved issues: " ++ strconvItoa r) ∧
    (p = 0 → r = 0 →
      (summarize mainAttachment p r).Color = str "good" ∧
      (summarize mainAttachment p r).Text = str "Everything is operating normally") := by
  refine ⟨?_, ?_, ?_, ?_⟩
  · unfold summarize
    split_ifs <;> rfl
  · intro hp
    have hp0 : p ≠ 0 := by omega
    unfold summarize
    rw [if_pos hp0]
    by_cases hr : 0 < r
    · have hr0 : r ≠ 0 := by omega
      simp [hr0, hr]
    · have hr0 : r = 0 := by omega
      simp [hr0, str_empty]
  · intro hp hr
    have hr0 : r ≠ 0 := by omega
    unfold summarize
    simp [hp, hr0]
  · intro hp hr
    unfold summarize
    simp [hp, hr]

/-- On a fetched page on which every abnormal row has a shown message of at least ten
bytes, `handleAWSStatus` returns, without error, the summary computed from the
numbers of danger and warning records followed by the records of the abnormal rows
in page order. -/
theorem handleAWSStatus_ret (w : World) (doc : Document)
    (hdoc : w.newDocument (str "http://status.aws.amazon.com") = Except.ok doc)
    (hlen : ∀ s ∈ doc.eventRows, isAbnormal s = true → 10 ≤ (shownMessage s).length) :
    handleAWSStatus w =
      Outcome.ret
        (summarize { Title := str "AWS", PreText := str "http://status.aws.amazon.com" }
            ((rowRecords doc.eventRows).countP (fun a => a.Color = str "danger"))
            ((rowRecords doc.eventRows).countP (fun a => a.Color = str "warning"))
          :: rowRecords doc.eventRows, none) := by
  unfold handleAWSStatus
  dsimp only
  rw [hdoc]
  dsimp only
  rw [scanRows_ret _ _ hlen]
  simp

/-- On a fetched page with an abnormal row whose shown message is shorter than ten
bytes, `handleAWSStatus` panics at `message[:10]`. -/
theorem handleAWSStatus_panics (w : World) (doc : Document)
    (hdoc : w.newDocument (str "http://status.aws.amazon.com") = Except.ok doc)
    (h : ∃ s ∈ doc.eventRows, isAbnormal s = true ∧ (shownMessage s).length < 10) :
    handleAWSStatus w = Outcome.panic Panic.messageSlice := by
  unfold handleAWSStatus
  dsimp only
  rw [hdoc]
  dsimp only
  rw [scanRows_panics _ _ h]

/-- C6, the failing input: on a fetched page whose only row carries the abnormal
message "Down", four bytes long, the cut `message[:10]` is out of range:
`handleAWSStatus` panics instead of returning the summary and one danger record, and
`Work` on "status aws" panics with it. -/
theorem handleAWSStatus_short_message_panics :
    isAbnormal [str "", str "EC2", str "Down"] = true ∧
    handleAWSStatus (boardWorld [[str "", str "EC2", str "Down"]]) =
      Outcome.panic Panic.messageSlice ∧
    (Work (boardWorld [[str "", str "EC2", str "Down"]]) { Text := str "status aws" }).outcome =
      Outcome.panic Panic.messageSlice := by
  decide

/-- C5, the failing input: on a fetched page with one resolved row and one row with
the abnormal message "Down", the scan panics at `message[:10]` and no summary is
returned, where one with severity danger and both counts is claimed; with the second
message ten bytes or longer the claimed summary is returned. -/
theorem handleAWSStatus_no_summary :
    handleAWSStatus
        (boardWorld
          [[str "", str "RDS", str "[RESOLVED] Increased error rates"],
           [str "", str "S3", str "Down"]]) =
      Outcome.panic Panic.messageSlice ∧
    handleAWSStatus
        (boardWorld
          [[str "", str "RDS", str "[RESOLVED] Increased error rates"],
           [str "", str "S3", str "Down since noon"]]) =
      Outcome.ret
        ([{ Title := str "AWS", PreText := str "http://status.aws.amazon.com",
            Text := str "Nr of issues: 1\nNr of resolved issues: 1", Color := str "danger" },
          { Title := str "RDS", Text := str "[RESOLVED] Increased error rates",
            Color := str "warning" },
          { Title := str "S3", Text := str "Down since noon", Color := str "danger" }],
         none) := by
  decide

/-! ## The fan-out (C2) -/

theorem firstPanic_none (checks : List (GoString × Outcome (Attachment × Option GoError)))
    (results : List (Attachment × Option GoError))
    (hret : checks.map Prod.snd = results.map Outcome.ret) : firstPanic checks = none := by
  induction checks generalizing results with
  | nil => rfl
  | cons c rest ih =>
    obtain ⟨k, v⟩ := c
    cases results with
    | nil => simp at hret
    | cons res more =>
      simp only [List.map_cons, List.cons.injEq] at hret
      obtain ⟨hv, hrest⟩ := hret
      subst hv
      simp only [firstPanic]
      exact ih more hrest

theorem sentBy_cons_ne (k name : GoString) (v : Outcome (Attachment × Option GoError))
    (rest : List (GoString × Outcome (Attachment × Option GoError))) (h : name ≠ k) :
    sentBy ((k, v) :: rest) name = sentBy rest name := by
  have hb : (name == k) = false := by simpa using h
  unfold sentBy
  rw [List.lookup_cons, hb]

/-- With distinct names and every check returning, the attachments sent by the
goroutines, listed in registration order, are the records the checks returned. -/
theorem filterMap_sentBy (checks : List (GoString × Outcome (Attachment × Option GoError)))
    (results : List (Attachment × Option GoError))
    (hnd : (checks.map Prod.fst).Nodup)
    (hret : checks.map Prod.snd = results.map Outcome.ret) :
    (checks.map Prod.fst).filterMap (sentBy checks) = results.map Prod.fst := by
  induction checks generalizing results with
  | nil =>
    cases results with
    | nil => rfl
    | cons res more => simp at hret
  | cons c rest ih =>
    obtain ⟨k, v⟩ := c
    cases results with
    | nil => simp at hret
    | cons res more =>
      simp only [List.map_cons, List.cons.injEq] at hret
      obtain ⟨hv, hrest⟩ := hret
      subst hv
      simp only [List.map_cons, List.nodup_cons] at hnd
      obtain ⟨hk, hnd⟩ := hnd
      have hhead : sentBy ((k, Outcome.ret res) :: rest) k = some res.1 := by
        unfold sentBy
        rw [List.lookup_cons_self]
      have htail : (rest.map Prod.fst).filterMap (sentBy ((k, Outcome.ret res) :: rest)) =
          (rest.map Prod.fst).filterMap (sentBy rest) := by
        apply List.filterMap_congr
        intro name hname
        apply sentBy_cons_ne
        intro hnk
        exact hk (hnk ▸ hname)
      simp only [List.map_cons, List.filterMap_cons, hhead, htail]
      rw [ih more hnd hrest]

theorem foldl_AddAttachment (attachments : List Attachment) (response : Response) :
    attachments.foldl Response.AddAttachment response =
      { response with Attachments := response.Attachments ++ attachments } := by
  induction attachments generalizing response with
  | nil => simp
  | cons a rest ih =>
    rw [List.foldl_cons, ih]
    simp [Response.AddAttachment]

/-- The fan-out over any registry with distinct names whose checks all return: for
every completion order that is a permutation of the names, the coordinator returns
the envelope extended by a permutation of the returned records, whatever errors the
checks returned with them. -/
theorem fanOut_ret (checks : List (GoString × Outcome (Attachment × Option GoError)))
    (results : List (Attachment × Option GoError)) (completion : List GoString)
    (response : Response)
    (hnd : (checks.map Prod.fst).Nodup)
    (hret : checks.map Prod.snd = results.map Outcome.ret)
    (horder : completion.Perm (checks.map Prod.fst)) :
    ∃ records : List Attachment,
      fanOut checks completion response =
        Outcome.ret { response with Attachments := response.Attachments ++ records } ∧
      records.length = checks.length ∧
      records.Perm (results.map Prod.fst) := by
  have hperm : (completion.filterMap (sentBy checks)).Perm (results.map Prod.fst) := by
    rw [← filterMap_sentBy checks results hnd hret]
    exact horder.filterMap _
  have hlen : (completion.filterMap (sentBy checks)).length = checks.length := by
    rw [hperm.length_eq, List.length_map, ← List.length_map results Outcome.ret, ← hret,
      List.length_map]
  refine ⟨completion.filterMap (sentBy checks), ?_, hlen, hperm⟩
  unfold fanOut
  rw [firstPanic_none checks results hret]
  dsimp only
  rw [if_neg (by omega), List.take_of_length_le (by omega), foldl_AddAttachment]

/-- C2: for the command text "status", whatever record and error each of the
registered checks returns, and for every completion order of their goroutines (any
permutation of the registered names), `Work` returns no error and a public envelope
with headline "Status results:" holding exactly one record per registered check,
five in all: a permutation of the records the checks returned. -/
theorem Work_status_all (w : World) (results : List (Attachment × Option GoError))
    (hret : (statuschecks w).map Prod.snd = results.map Outcome.ret)
    (horder : w.completion.Perm ((statuschecks w).map Prod.fst)) :
    ∃ records : List Attachment,
      (Work w { Text := str "status" }).outcome =
        Outcome.ret
          ({ Text := str "Status results:", Attachments := records,
             visibility := Visibility.Public }, none) ∧
      records.length = (statuschecks w).length ∧
      records.length = 5 ∧
      records.Perm (results.map Prod.fst) := by
  have hnd : ((statuschecks w).map Prod.fst).Nodup := by
    rw [statuschecks_keys]
    decide
  obtain ⟨records, hfan, hlen, hperm⟩ :=
    fanOut_ret (statuschecks w) results w.completion {} hnd hret horder
  refine ⟨records, ?_, hlen, by rw [hlen, statuschecks_length], hperm⟩
  unfold Work
  dsimp only
  rw [if_pos rfl]
  dsimp only
  rw [hfan]
  dsimp only
  rw [← finish_results]
  simp [Response.SetPublic]

/-- C2 at a concrete input: in a world where every registered check returns an
error, with the goroutines completing in the order npmjs, github, cloudflare,
bitbucket, disqus, "status" still returns five records and no error. -/
theorem Work_status_all_witness :
    ∃ records : List Attachment,
      (Work failingWorld { Text := str "status" }).outcome =
        Outcome.ret
          ({ Text := str "Status results:", Attachments := records,
             visibility := Visibility.Public }, none) ∧
      records.length = (statuschecks failingWorld).length ∧
      records.length = 5 ∧
      records.Perm
        (List.map Prod.fst
          [(({ Title := str "GitHub", PreText := str "http://status.github.com" } : Attachment),
             some (GoError.upstream 3)),
           ({ Title := str "Bitbucket", PreText := str "http://status.bitbucket.org" },
             some (GoError.upstream 4)),
           ({ Title := str "NPM", PreText := str "http://status.npmjs.org" },
             some (GoError.upstream 4)),
           ({ Title := str "Disqus", PreText := str "http://status.disqus.com" },
             some (GoError.upstream 4)),
           ({ Title := str "Cloudflare", PreText := str "http://cloudflarestatus.com" },
             some (GoError.upstream 4))]) :=
  Work_status_all failingWorld _ (by decide) (by decide)

end Igor
